import Mathlib

/-!
Verification of the turn-based game session engine of `simple_bot_everything.py`
(the Connect-Four and Tic-Tac-Toe views and their button callbacks).

Boards are Python lists of lists of ints (`0` empty, `1` player one, `2` player
two); they are embedded as `List (List Nat)`.  The session state of a view is
its `board`, `players`, `turn` and `game_over` fields.  A button callback is
embedded as a pure step function from a state and an interacting user to a new
state, a symbolic outcome and the list of economy-credit events (`add_coins`
calls) the callback performs.
-/

namespace NewBot

/-- A game board: a list of rows, each row a list of cell values.
`0` is empty, `1` is player one's piece, `2` is player two's piece,
exactly as in the Python lists of ints. -/
abbrev Board := List (List Nat)

/-- Read the cell at row `r`, column `c` (`board[r][c]` in the source).
All reads performed by the source are in bounds; an out-of-range read
defaults to `0` here. -/
def bGet (b : Board) (r c : Nat) : Nat := (b.getD r []).getD c 0

/-- The loop body of `Connect4View.drop_piece`: the Python loop
`for row in reversed(self.board)` visits the rows bottom-up, and the first
row with `row[col] == 0` is mutated by `row[col] = piece`, returning `True`;
if no row qualifies the function returns `False`.  `rows` is the bottom-up
row list.  An out-of-range column read defaults to a nonzero value (the
source only ever passes a column index within every row). -/
def dropScan (rows : List (List Nat)) (col piece : Nat) : List (List Nat) × Bool :=
  match rows with
  | [] => ([], false)
  | row :: rest =>
    if row.getD col 1 = 0 then (row.set col piece :: rest, true)
    else
      let p := dropScan rest col piece
      (row :: p.1, p.2)

/-- `Connect4View.drop_piece(col, piece)`: gravity drop into a column.
Returns the board after the call together with the success flag. -/
def drop_piece (b : Board) (col piece : Nat) : Board × Bool :=
  let p := dropScan b.reverse col piece
  (p.1.reverse, p.2)

/-- `Connect4View.check_winner(piece)`: for every cell `(r, c)` of the 6×7
grid, test the horizontal, vertical, down-right and up-right runs of length 4
starting there, with the same bounds guards as the source
(`c + 3 < 7`, `r + 3 < 6`, `r - 3 >= 0`). -/
def c4_check_winner (b : Board) (piece : Nat) : Bool :=
  (List.range 6).any fun r => (List.range 7).any fun c =>
    (decide (c + 3 < 7) && ((List.range 4).all fun i => bGet b r (c + i) == piece)) ||
    (decide (r + 3 < 6) && ((List.range 4).all fun i => bGet b (r + i) c == piece)) ||
    (decide (r + 3 < 6) && decide (c + 3 < 7) &&
      ((List.range 4).all fun i => bGet b (r + i) (c + i) == piece)) ||
    (decide (3 ≤ r) && decide (c + 3 < 7) &&
      ((List.range 4).all fun i => bGet b (r - i) (c + i) == piece))

/-- The draw test used by both callbacks:
`all(all(cell != 0 for cell in row) for row in view.board)`. -/
def board_full (b : Board) : Bool := b.all fun row => row.all fun cell => cell != 0

/-- `TicTacToeView.check_winner(piece)`: any full row, any full column
(`row[i]` for each row), the main diagonal `b[i][i]`, or the anti-diagonal
`b[i][2-i]`. -/
def ttt_check_winner (b : Board) (piece : Nat) : Bool :=
  (b.any fun row => row.all fun cell => cell == piece) ||
  ((List.range 3).any fun i => b.all fun row => row.getD i 0 == piece) ||
  ((List.range 3).all fun i => bGet b i i == piece) ||
  ((List.range 3).all fun i => bGet b i (2 - i) == piece)

/-- `view.board[y][x] = piece` on a list-of-lists board. -/
def set_cell (b : Board) (y x piece : Nat) : Board :=
  b.set y ((b.getD y []).set x piece)

/-- The session state held by a game view: its `board`, the two participant
identifiers `players` (`[player1, player2]`), the `turn` index and the
`game_over` flag.  Both views carry exactly these fields. -/
structure GameState where
  board : Board
  players : List Nat
  turn : Nat
  gameOver : Bool
deriving DecidableEq, Repr

/-- The observable outcome of one button callback. -/
inductive MoveOutcome where
  | gameAlreadyOver
  | notYourTurn
  | illegalMove
  | won (winner : Nat)
  | drawn
  | moved
deriving DecidableEq, Repr

/-- The result of one button callback: the state the view is left in, the
outcome reported to the interacting user, and the economy-credit events
(`add_coins(user, amount)` calls) the callback emits, in order. -/
structure MoveResult where
  state : GameState
  outcome : MoveOutcome
  credits : List (Nat × Int)
deriving DecidableEq, Repr

/-- `Connect4Button.callback`: reject if `view.game_over`; reject if the
interacting user is not `view.players[view.turn]`; drop a piece with
`view.drop_piece(self.col, view.turn + 1)` and reject if the column is full;
then test `check_winner`, then the draw condition, else flip the turn.
The source emits no `add_coins` call on any branch, so every branch carries
an empty credit list. -/
def c4_callback (s : GameState) (user col : Nat) : MoveResult :=
  if s.gameOver then ⟨s, .gameAlreadyOver, []⟩
  else if user ≠ s.players.getD s.turn 0 then ⟨s, .notYourTurn, []⟩
  else
    let piece := s.turn + 1
    let dp := drop_piece s.board col piece
    let s1 : GameState := { s with board := dp.1 }
    if dp.2 = false then ⟨s1, .illegalMove, []⟩
    else if c4_check_winner s1.board piece then ⟨{ s1 with gameOver := true }, .won user, []⟩
    else if board_full s1.board then ⟨{ s1 with gameOver := true }, .drawn, []⟩
    else ⟨{ s1 with turn := 1 - s1.turn }, .moved, []⟩

/-- `TicTacToeButton.callback`: reject if `view.game_over`; reject if the
interacting user is not `view.players[view.turn]`; reject if
`view.board[y][x] != 0`; otherwise write `view.turn + 1` into the cell,
then test `check_winner`, then the draw condition, else flip the turn.
The source emits no `add_coins` call on any branch. -/
def ttt_callback (s : GameState) (user x y : Nat) : MoveResult :=
  if s.gameOver then ⟨s, .gameAlreadyOver, []⟩
  else if user ≠ s.players.getD s.turn 0 then ⟨s, .notYourTurn, []⟩
  else if bGet s.board y x ≠ 0 then ⟨s, .illegalMove, []⟩
  else
    let piece := s.turn + 1
    let s1 : GameState := { s with board := set_cell s.board y x piece }
    if ttt_check_winner s1.board piece then ⟨{ s1 with gameOver := true }, .won user, []⟩
    else if board_full s1.board then ⟨{ s1 with gameOver := true }, .drawn, []⟩
    else ⟨{ s1 with turn := 1 - s1.turn }, .moved, []⟩

/-- `Connect4View.__init__`: a 6×7 all-zero board, `players = [p1, p2]`,
`turn = 0`, `game_over = False`. -/
def c4_init (p1 p2 : Nat) : GameState :=
  ⟨List.replicate 6 (List.replicate 7 0), [p1, p2], 0, false⟩

/-- `TicTacToeView.__init__`: a 3×3 all-zero board, `players = [p1, p2]`,
`turn = 0`, `game_over = False`. -/
def ttt_init (p1 p2 : Nat) : GameState :=
  ⟨List.replicate 3 (List.replicate 3 0), [p1, p2], 0, false⟩

/-- Modelled from the spec: the parameterized line-detection primitive
`hasLine(piece, runLength)` over a `rows × cols` extent, scanning from every
cell the horizontal, vertical and the two diagonal directions for
`runLength` consecutive cells held by `piece`, each run required to lie
within the board extent. -/
def hasLine (rows cols runLength : Nat) (b : Board) (piece : Nat) : Bool :=
  (List.range rows).any fun r => (List.range cols).any fun c =>
    (decide (c + runLength ≤ cols) &&
      ((List.range runLength).all fun i => bGet b r (c + i) == piece)) ||
    (decide (r + runLength ≤ rows) &&
      ((List.range runLength).all fun i => bGet b (r + i) c == piece)) ||
    (decide (r + runLength ≤ rows) && decide (c + runLength ≤ cols) &&
      ((List.range runLength).all fun i => bGet b (r + i) (c + i) == piece)) ||
    (decide (runLength ≤ r + 1) && decide (c + runLength ≤ cols) &&
      ((List.range runLength).all fun i => bGet b (r - i) (c + i) == piece))

/-! ### Characterization of the gravity drop -/

theorem dropScan_length (rows : List (List Nat)) (col piece : Nat) :
    (dropScan rows col piece).1.length = rows.length := by
  induction rows with
  | nil => rfl
  | cons row rest ih =>
    simp only [dropScan]
    split
    · simp
    · simpa using ih

theorem dropScan_eq_false (rows : List (List Nat)) (col piece : Nat) :
    (dropScan rows col piece).2 = false ↔ ∀ row ∈ rows, row.getD col 1 ≠ 0 := by
  induction rows with
  | nil => simp [dropScan]
  | cons row rest ih =>
    by_cases h : row.getD col 1 = 0
    · simp only [dropScan]
      rw [if_pos h, List.forall_mem_cons]
      constructor
      · intro hfalse; simp at hfalse
      · intro hall; exact absurd h hall.1
    · simp only [dropScan]
      rw [if_neg h, List.forall_mem_cons]
      constructor
      · intro hf; exact ⟨h, ih.mp hf⟩
      · intro hand; exact ih.mpr hand.2

theorem dropScan_eq_false_board (rows : List (List Nat)) (col piece : Nat)
    (h : (dropScan rows col piece).2 = false) :
    (dropScan rows col piece).1 = rows := by
  induction rows with
  | nil => rfl
  | cons row rest ih =>
    by_cases h0 : row.getD col 1 = 0
    · simp only [dropScan] at h
      rw [if_pos h0] at h
      simp at h
    · have h' : (dropScan rest col piece).2 = false := by
        simp only [dropScan] at h
        rw [if_neg h0] at h
        exact h
      simp only [dropScan]
      rw [if_neg h0]
      show row :: (dropScan rest col piece).1 = row :: rest
      rw [ih h']

theorem dropScan_eq_true (rows : List (List Nat)) (col piece : Nat)
    (h : (dropScan rows col piece).2 = true) :
    ∃ i, i < rows.length ∧ (rows.getD i []).getD col 1 = 0 ∧
      (∀ j, j < i → (rows.getD j []).getD col 1 ≠ 0) ∧
      (dropScan rows col piece).1 = rows.set i ((rows.getD i []).set col piece) := by
  induction rows with
  | nil => simp [dropScan] at h
  | cons row rest ih =>
    by_cases h0 : row.getD col 1 = 0
    · refine ⟨0, by simp, by simpa [List.getD_cons_zero] using h0, by omega, ?_⟩
      simp only [dropScan]
      rw [if_pos h0]
      simp only [List.getD_cons_zero, List.set_cons_zero]
    · have h' : (dropScan rest col piece).2 = true := by
        simp only [dropScan] at h
        rw [if_neg h0] at h
        exact h
      obtain ⟨i, hi, hz, hocc, hb⟩ := ih h'
      refine ⟨i + 1, by simpa using hi, by simpa [List.getD_cons_succ] using hz, ?_, ?_⟩
      · intro j hj
        cases j with
        | zero => simpa [List.getD_cons_zero] using h0
        | succ k => simpa [List.getD_cons_succ] using hocc k (by omega)
      · simp only [dropScan]
        rw [if_neg h0]
        simp only [List.getD_cons_succ, List.set_cons_succ]
        show row :: (dropScan rest col piece).1 = _
        rw [hb]

theorem getD_reverse (b : Board) (i : Nat) (h : i < b.length) (d : List Nat) :
    b.reverse.getD i d = b.getD (b.length - 1 - i) d := by
  rw [List.getD_eq_getElem _ _ (by simpa using h), List.getElem_reverse,
      List.getD_eq_getElem _ _ (by omega)]

theorem reverse_set_reverse (b : Board) (i : Nat) (h : i < b.length) (x : List Nat) :
    (b.reverse.set i x).reverse = b.set (b.length - 1 - i) x := by
  apply List.ext_getElem
  · simp
  · intro j h1 h2
    have hj : j < b.length := by simpa using h2
    rw [List.getElem_reverse]
    rw [List.getElem_set, List.getElem_set]
    have hlen : (b.reverse.set i x).length = b.length := by simp
    by_cases hij : i = b.length - 1 - j
    · rw [if_pos (by simp only [hlen]; omega), if_pos (by omega)]
    · rw [if_neg (by simp only [hlen]; omega), if_neg (by omega)]
      rw [List.getElem_reverse]
      have hidx : b.length - 1 - (b.length - 1 - j) = j := by omega
      simp only [hlen, hidx]

theorem drop_piece_false_iff (b : Board) (col piece : Nat) :
    (drop_piece b col piece).2 = false ↔ ∀ row ∈ b, row.getD col 1 ≠ 0 := by
  have base := dropScan_eq_false b.reverse col piece
  constructor
  · intro h row hrow
    exact base.mp h row (List.mem_reverse.mpr hrow)
  · intro hall
    exact base.mpr fun row hrow => hall row (List.mem_reverse.mp hrow)

theorem drop_piece_false_board (b : Board) (col piece : Nat)
    (h : (drop_piece b col piece).2 = false) :
    (drop_piece b col piece).1 = b := by
  have h2 : (dropScan b.reverse col piece).2 = false := h
  show (dropScan b.reverse col piece).1.reverse = b
  rw [dropScan_eq_false_board _ _ _ h2, List.reverse_reverse]

theorem drop_piece_true_spec (b : Board) (col piece : Nat)
    (h : (drop_piece b col piece).2 = true) :
    ∃ r, r < b.length ∧ (b.getD r []).getD col 1 = 0 ∧
      (∀ rr, r < rr → rr < b.length → (b.getD rr []).getD col 1 ≠ 0) ∧
      (drop_piece b col piece).1 = set_cell b r col piece := by
  have h2 : (dropScan b.reverse col piece).2 = true := by simpa [drop_piece] using h
  obtain ⟨i, hi, hz, hocc, hb⟩ := dropScan_eq_true _ _ _ h2
  rw [List.length_reverse] at hi
  have hrow : b.reverse.getD i [] = b.getD (b.length - 1 - i) [] :=
    getD_reverse b i hi []
  refine ⟨b.length - 1 - i, by omega, by rwa [hrow] at hz, ?_, ?_⟩
  · intro rr h1 h2'
    have hj : b.reverse.getD (b.length - 1 - rr) [] = b.getD rr [] := by
      rw [getD_reverse b _ (by omega)]
      have : b.length - 1 - (b.length - 1 - rr) = rr := by omega
      rw [this]
    intro hzz
    exact hocc (b.length - 1 - rr) (by omega) (by rw [hj]; exact hzz)
  · show (dropScan b.reverse col piece).1.reverse = _
    rw [hb, hrow, reverse_set_reverse b i hi]
    rfl

/-! ### Cell-level effect of a placement -/

theorem bGet_set_cell_eq (b : Board) (r c p : Nat)
    (hr : r < b.length) (hc : c < (b.getD r []).length) :
    bGet (set_cell b r c p) r c = p := by
  have hc3 : c < (getElem b r hr).length := by
    rwa [List.getD_eq_getElem _ _ hr] at hc
  simp [bGet, set_cell, List.getD_eq_getElem?_getD, List.getElem?_set, hr, hc3]

theorem bGet_set_cell_ne (b : Board) (r c p r' c' : Nat) (h : ¬(r' = r ∧ c' = c)) :
    bGet (set_cell b r c p) r' c' = bGet b r' c' := by
  simp only [bGet, set_cell, List.getD_eq_getElem?_getD, List.getElem?_set]
  by_cases hr : r = r'
  · subst hr
    have hc : ¬c = c' := fun hcc => h ⟨rfl, hcc.symm⟩
    by_cases hlt : r < b.length
    · simp [hlt, hc]
    · simp [hlt, List.getElem?_eq_none (le_of_not_lt hlt)]
  · simp [hr]

/-! ### Branch lemmas for the two callbacks -/

theorem c4_callback_gameOver (s : GameState) (user col : Nat) (h : s.gameOver = true) :
    c4_callback s user col = ⟨s, .gameAlreadyOver, []⟩ := by
  obtain ⟨bo, pl, t, go⟩ := s
  dsimp only at h ⊢
  subst h
  simp [c4_callback]

theorem c4_callback_notYourTurn (s : GameState) (user col : Nat)
    (h : s.gameOver = false) (h2 : user ≠ s.players.getD s.turn 0) :
    c4_callback s user col = ⟨s, .notYourTurn, []⟩ := by
  obtain ⟨bo, pl, t, go⟩ := s
  dsimp only at h h2 ⊢
  subst h
  rw [List.getD_eq_getElem?_getD] at h2
  simp [c4_callback, h2]

theorem c4_callback_illegal (s : GameState) (user col : Nat)
    (h : s.gameOver = false) (h2 : user = s.players.getD s.turn 0)
    (h3 : (drop_piece s.board col (s.turn + 1)).2 = false) :
    c4_callback s user col = ⟨s, .illegalMove, []⟩ := by
  obtain ⟨bo, pl, t, go⟩ := s
  dsimp only at h h2 h3 ⊢
  have hb := drop_piece_false_board _ _ _ h3
  subst h
  simp [c4_callback, h2, h3, hb]

theorem c4_callback_won (s : GameState) (user col : Nat)
    (h : s.gameOver = false) (h2 : user = s.players.getD s.turn 0)
    (h3 : (drop_piece s.board col (s.turn + 1)).2 = true)
    (h4 : c4_check_winner (drop_piece s.board col (s.turn + 1)).1 (s.turn + 1) = true) :
    c4_callback s user col =
      ⟨⟨(drop_piece s.board col (s.turn + 1)).1, s.players, s.turn, true⟩, .won user, []⟩ := by
  obtain ⟨bo, pl, t, go⟩ := s
  dsimp only at h h2 h3 h4 ⊢
  subst h
  simp [c4_callback, h2, h3, h4]

theorem c4_callback_drawn (s : GameState) (user col : Nat)
    (h : s.gameOver = false) (h2 : user = s.players.getD s.turn 0)
    (h3 : (drop_piece s.board col (s.turn + 1)).2 = true)
    (h4 : c4_check_winner (drop_piece s.board col (s.turn + 1)).1 (s.turn + 1) = false)
    (h5 : board_full (drop_piece s.board col (s.turn + 1)).1 = true) :
    c4_callback s user col =
      ⟨⟨(drop_piece s.board col (s.turn + 1)).1, s.players, s.turn, true⟩, .drawn, []⟩ := by
  obtain ⟨bo, pl, t, go⟩ := s
  dsimp only at h h2 h3 h4 h5 ⊢
  subst h
  simp [c4_callback, h2, h3, h4, h5]

theorem c4_callback_moved (s : GameState) (user col : Nat)
    (h : s.gameOver = false) (h2 : user = s.players.getD s.turn 0)
    (h3 : (drop_piece s.board col (s.turn + 1)).2 = true)
    (h4 : c4_check_winner (drop_piece s.board col (s.turn + 1)).1 (s.turn + 1) = false)
    (h5 : board_full (drop_piece s.board col (s.turn + 1)).1 = false) :
    c4_callback s user col =
      ⟨⟨(drop_piece s.board col (s.turn + 1)).1, s.players, 1 - s.turn, false⟩, .moved, []⟩ := by
  obtain ⟨bo, pl, t, go⟩ := s
  dsimp only at h h2 h3 h4 h5 ⊢
  subst h
  simp [c4_callback, h2, h3, h4, h5]

theorem ttt_callback_gameOver (s : GameState) (user x y : Nat) (h : s.gameOver = true) :
    ttt_callback s user x y = ⟨s, .gameAlreadyOver, []⟩ := by
  obtain ⟨bo, pl, t, go⟩ := s
  dsimp only at h ⊢
  subst h
  simp [ttt_callback]

theorem ttt_callback_notYourTurn (s : GameState) (user x y : Nat)
    (h : s.gameOver = false) (h2 : user ≠ s.players.getD s.turn 0) :
    ttt_callback s user x y = ⟨s, .notYourTurn, []⟩ := by
  obtain ⟨bo, pl, t, go⟩ := s
  dsimp only at h h2 ⊢
  subst h
  rw [List.getD_eq_getElem?_getD] at h2
  simp [ttt_callback, h2]

theorem ttt_callback_illegal (s : GameState) (user x y : Nat)
    (h : s.gameOver = false) (h2 : user = s.players.getD s.turn 0)
    (h3 : bGet s.board y x ≠ 0) :
    ttt_callback s user x y = ⟨s, .illegalMove, []⟩ := by
  obtain ⟨bo, pl, t, go⟩ := s
  dsimp only at h h2 h3 ⊢
  subst h
  simp [ttt_callback, h2, h3]

theorem ttt_callback_won (s : GameState) (user x y : Nat)
    (h : s.gameOver = false) (h2 : user = s.players.getD s.turn 0)
    (h3 : bGet s.board y x = 0)
    (h4 : ttt_check_winner (set_cell s.board y x (s.turn + 1)) (s.turn + 1) = true) :
    ttt_callback s user x y =
      ⟨⟨set_cell s.board y x (s.turn + 1), s.players, s.turn, true⟩, .won user, []⟩ := by
  obtain ⟨bo, pl, t, go⟩ := s
  dsimp only at h h2 h3 h4 ⊢
  subst h
  simp [ttt_callback, h2, h3, h4]

theorem ttt_callback_drawn (s : GameState) (user x y : Nat)
    (h : s.gameOver = false) (h2 : user = s.players.getD s.turn 0)
    (h3 : bGet s.board y x = 0)
    (h4 : ttt_check_winner (set_cell s.board y x (s.turn + 1)) (s.turn + 1) = false)
    (h5 : board_full (set_cell s.board y x (s.turn + 1)) = true) :
    ttt_callback s user x y =
      ⟨⟨set_cell s.board y x (s.turn + 1), s.players, s.turn, true⟩, .drawn, []⟩ := by
  obtain ⟨bo, pl, t, go⟩ := s
  dsimp only at h h2 h3 h4 h5 ⊢
  subst h
  simp [ttt_callback, h2, h3, h4, h5]

theorem ttt_callback_moved (s : GameState) (user x y : Nat)
    (h : s.gameOver = false) (h2 : user = s.players.getD s.turn 0)
    (h3 : bGet s.board y x = 0)
    (h4 : ttt_check_winner (set_cell s.board y x (s.turn + 1)) (s.turn + 1) = false)
    (h5 : board_full (set_cell s.board y x (s.turn + 1)) = false) :
    ttt_callback s user x y =
      ⟨⟨set_cell s.board y x (s.turn + 1), s.players, 1 - s.turn, false⟩, .moved, []⟩ := by
  obtain ⟨bo, pl, t, go⟩ := s
  dsimp only at h h2 h3 h4 h5 ⊢
  subst h
  simp [ttt_callback, h2, h3, h4, h5]

/-- Exhaustive case analysis of `Connect4Button.callback`. -/
theorem c4_cases (s : GameState) (user col : Nat) :
    (s.gameOver = true ∧ c4_callback s user col = ⟨s, .gameAlreadyOver, []⟩) ∨
    (s.gameOver = false ∧ user ≠ s.players.getD s.turn 0 ∧
      c4_callback s user col = ⟨s, .notYourTurn, []⟩) ∨
    (s.gameOver = false ∧ user = s.players.getD s.turn 0 ∧
      (drop_piece s.board col (s.turn + 1)).2 = false ∧
      c4_callback s user col = ⟨s, .illegalMove, []⟩) ∨
    (s.gameOver = false ∧ user = s.players.getD s.turn 0 ∧
      (drop_piece s.board col (s.turn + 1)).2 = true ∧
      c4_check_winner (drop_piece s.board col (s.turn + 1)).1 (s.turn + 1) = true ∧
      c4_callback s user col =
        ⟨⟨(drop_piece s.board col (s.turn + 1)).1, s.players, s.turn, true⟩, .won user, []⟩) ∨
    (s.gameOver = false ∧ user = s.players.getD s.turn 0 ∧
      (drop_piece s.board col (s.turn + 1)).2 = true ∧
      c4_check_winner (drop_piece s.board col (s.turn + 1)).1 (s.turn + 1) = false ∧
      board_full (drop_piece s.board col (s.turn + 1)).1 = true ∧
      c4_callback s user col =
        ⟨⟨(drop_piece s.board col (s.turn + 1)).1, s.players, s.turn, true⟩, .drawn, []⟩) ∨
    (s.gameOver = false ∧ user = s.players.getD s.turn 0 ∧
      (drop_piece s.board col (s.turn + 1)).2 = true ∧
      c4_check_winner (drop_piece s.board col (s.turn + 1)).1 (s.turn + 1) = false ∧
      board_full (drop_piece s.board col (s.turn + 1)).1 = false ∧
      c4_callback s user col =
        ⟨⟨(drop_piece s.board col (s.turn + 1)).1, s.players, 1 - s.turn, false⟩,
          .moved, []⟩) := by
  by_cases hgo : s.gameOver = true
  · exact Or.inl ⟨hgo, c4_callback_gameOver s user col hgo⟩
  · have hgo2 : s.gameOver = false := by simpa using hgo
    by_cases hu : user = s.players.getD s.turn 0
    · by_cases hdp : (drop_piece s.board col (s.turn + 1)).2 = true
      · by_cases hw : c4_check_winner (drop_piece s.board col (s.turn + 1)).1 (s.turn + 1) = true
        · exact Or.inr (Or.inr (Or.inr (Or.inl
            ⟨hgo2, hu, hdp, hw, c4_callback_won s user col hgo2 hu hdp hw⟩)))
        · have hw2 :
              c4_check_winner (drop_piece s.board col (s.turn + 1)).1 (s.turn + 1) = false := by
            simpa using hw
          by_cases hf : board_full (drop_piece s.board col (s.turn + 1)).1 = true
          · exact Or.inr (Or.inr (Or.inr (Or.inr (Or.inl
              ⟨hgo2, hu, hdp, hw2, hf, c4_callback_drawn s user col hgo2 hu hdp hw2 hf⟩))))
          · have hf2 : board_full (drop_piece s.board col (s.turn + 1)).1 = false := by
              simpa using hf
            exact Or.inr (Or.inr (Or.inr (Or.inr (Or.inr
              ⟨hgo2, hu, hdp, hw2, hf2, c4_callback_moved s user col hgo2 hu hdp hw2 hf2⟩))))
      · have hdp2 : (drop_piece s.board col (s.turn + 1)).2 = false := by simpa using hdp
        exact Or.inr (Or.inr (Or.inl
          ⟨hgo2, hu, hdp2, c4_callback_illegal s user col hgo2 hu hdp2⟩))
    · exact Or.inr (Or.inl ⟨hgo2, hu, c4_callback_notYourTurn s user col hgo2 hu⟩)

/-- Exhaustive case analysis of `TicTacToeButton.callback`. -/
theorem ttt_cases (s : GameState) (user x y : Nat) :
    (s.gameOver = true ∧ ttt_callback s user x y = ⟨s, .gameAlreadyOver, []⟩) ∨
    (s.gameOver = false ∧ user ≠ s.players.getD s.turn 0 ∧
      ttt_callback s user x y = ⟨s, .notYourTurn, []⟩) ∨
    (s.gameOver = false ∧ user = s.players.getD s.turn 0 ∧ bGet s.board y x ≠ 0 ∧
      ttt_callback s user x y = ⟨s, .illegalMove, []⟩) ∨
    (s.gameOver = false ∧ user = s.players.getD s.turn 0 ∧ bGet s.board y x = 0 ∧
      ttt_check_winner (set_cell s.board y x (s.turn + 1)) (s.turn + 1) = true ∧
      ttt_callback s user x y =
        ⟨⟨set_cell s.board y x (s.turn + 1), s.players, s.turn, true⟩, .won user, []⟩) ∨
    (s.gameOver = false ∧ user = s.players.getD s.turn 0 ∧ bGet s.board y x = 0 ∧
      ttt_check_winner (set_cell s.board y x (s.turn + 1)) (s.turn + 1) = false ∧
      board_full (set_cell s.board y x (s.turn + 1)) = true ∧
      ttt_callback s user x y =
        ⟨⟨set_cell s.board y x (s.turn + 1), s.players, s.turn, true⟩, .drawn, []⟩) ∨
    (s.gameOver = false ∧ user = s.players.getD s.turn 0 ∧ bGet s.board y x = 0 ∧
      ttt_check_winner (set_cell s.board y x (s.turn + 1)) (s.turn + 1) = false ∧
      board_full (set_cell s.board y x (s.turn + 1)) = false ∧
      ttt_callback s user x y =
        ⟨⟨set_cell s.board y x (s.turn + 1), s.players, 1 - s.turn, false⟩, .moved, []⟩) := by
  by_cases hgo : s.gameOver = true
  · exact Or.inl ⟨hgo, ttt_callback_gameOver s user x y hgo⟩
  · have hgo2 : s.gameOver = false := by simpa using hgo
    by_cases hu : user = s.players.getD s.turn 0
    · by_cases hc : bGet s.board y x = 0
      · by_cases hw : ttt_check_winner (set_cell s.board y x (s.turn + 1)) (s.turn + 1) = true
        · exact Or.inr (Or.inr (Or.inr (Or.inl
            ⟨hgo2, hu, hc, hw, ttt_callback_won s user x y hgo2 hu hc hw⟩)))
        · have hw2 :
              ttt_check_winner (set_cell s.board y x (s.turn + 1)) (s.turn + 1) = false := by
            simpa using hw
          by_cases hf : board_full (set_cell s.board y x (s.turn + 1)) = true
          · exact Or.inr (Or.inr (Or.inr (Or.inr (Or.inl
              ⟨hgo2, hu, hc, hw2, hf, ttt_callback_drawn s user x y hgo2 hu hc hw2 hf⟩))))
          · have hf2 : board_full (set_cell s.board y x (s.turn + 1)) = false := by
              simpa using hf
            exact Or.inr (Or.inr (Or.inr (Or.inr (Or.inr
              ⟨hgo2, hu, hc, hw2, hf2, ttt_callback_moved s user x y hgo2 hu hc hw2 hf2⟩))))
      · exact Or.inr (Or.inr (Or.inl
          ⟨hgo2, hu, hc, ttt_callback_illegal s user x y hgo2 hu hc⟩))
    · exact Or.inr (Or.inl ⟨hgo2, hu, ttt_callback_notYourTurn s user x y hgo2 hu⟩)

/-! ### Bridging lemmas between the scan view and the cell view -/

theorem getD1_eq_bGet (b : Board) (col r : Nat) (hr : r < b.length)
    (hcol : ∀ row ∈ b, col < row.length) :
    (b.getD r []).getD col 1 = bGet b r col := by
  have hmem : b.getD r [] ∈ b := by
    rw [List.getD_eq_getElem _ _ hr]
    exact List.getElem_mem hr
  have hc := hcol _ hmem
  unfold bGet
  rw [List.getD_eq_getElem _ _ hc, List.getD_eq_getElem _ _ hc]

theorem colFull_iff (b : Board) (col : Nat) (hcol : ∀ row ∈ b, col < row.length) :
    (∀ row ∈ b, row.getD col 1 ≠ 0) ↔ ∀ r, r < b.length → bGet b r col ≠ 0 := by
  constructor
  · intro hall r hr
    rw [← getD1_eq_bGet b col r hr hcol]
    apply hall
    rw [List.getD_eq_getElem _ _ hr]
    exact List.getElem_mem hr
  · intro hall row hrow
    obtain ⟨r, hr, heq⟩ := List.mem_iff_getElem.mp hrow
    have h2 := hall r hr
    rw [← getD1_eq_bGet b col r hr hcol, List.getD_eq_getElem _ _ hr, heq] at h2
    exact h2

/-! ### Turn and board effects of each outcome -/

theorem c4_moved_turn (s : GameState) (user col : Nat)
    (h : (c4_callback s user col).outcome = MoveOutcome.moved) :
    (c4_callback s user col).state.turn = 1 - s.turn := by
  rcases c4_cases s user col with ⟨_, he⟩ | ⟨_, _, he⟩ | ⟨_, _, _, he⟩ | ⟨_, _, _, _, he⟩ |
      ⟨_, _, _, _, _, he⟩ | ⟨_, _, _, _, _, he⟩
  · rw [he] at h; simp at h
  · rw [he] at h; simp at h
  · rw [he] at h; simp at h
  · rw [he] at h; simp at h
  · rw [he] at h; simp at h
  · rw [he]

theorem c4_terminal_turn (s : GameState) (user col : Nat)
    (h : (∃ w, (c4_callback s user col).outcome = MoveOutcome.won w) ∨
      (c4_callback s user col).outcome = MoveOutcome.drawn) :
    (c4_callback s user col).state.turn = s.turn := by
  rcases c4_cases s user col with ⟨_, he⟩ | ⟨_, _, he⟩ | ⟨_, _, _, he⟩ | ⟨_, _, _, _, he⟩ |
      ⟨_, _, _, _, _, he⟩ | ⟨_, _, _, _, _, he⟩
  · rcases h with ⟨w, hw⟩ | hd
    · rw [he] at hw; simp at hw
    · rw [he] at hd; simp at hd
  · rcases h with ⟨w, hw⟩ | hd
    · rw [he] at hw; simp at hw
    · rw [he] at hd; simp at hd
  · rcases h with ⟨w, hw⟩ | hd
    · rw [he] at hw; simp at hw
    · rw [he] at hd; simp at hd
  · rw [he]
  · rw [he]
  · rcases h with ⟨w, hw⟩ | hd
    · rw [he] at hw; simp at hw
    · rw [he] at hd; simp at hd

theorem ttt_moved_turn (s : GameState) (user x y : Nat)
    (h : (ttt_callback s user x y).outcome = MoveOutcome.moved) :
    (ttt_callback s user x y).state.turn = 1 - s.turn := by
  rcases ttt_cases s user x y with ⟨_, he⟩ | ⟨_, _, he⟩ | ⟨_, _, _, he⟩ | ⟨_, _, _, _, he⟩ |
      ⟨_, _, _, _, _, he⟩ | ⟨_, _, _, _, _, he⟩
  · rw [he] at h; simp at h
  · rw [he] at h; simp at h
  · rw [he] at h; simp at h
  · rw [he] at h; simp at h
  · rw [he] at h; simp at h
  · rw [he]

theorem ttt_terminal_turn (s : GameState) (user x y : Nat)
    (h : (∃ w, (ttt_callback s user x y).outcome = MoveOutcome.won w) ∨
      (ttt_callback s user x y).outcome = MoveOutcome.drawn) :
    (ttt_callback s user x y).state.turn = s.turn := by
  rcases ttt_cases s user x y with ⟨_, he⟩ | ⟨_, _, he⟩ | ⟨_, _, _, he⟩ | ⟨_, _, _, _, he⟩ |
      ⟨_, _, _, _, _, he⟩ | ⟨_, _, _, _, _, he⟩
  · rcases h with ⟨w, hw⟩ | hd
    · rw [he] at hw; simp at hw
    · rw [he] at hd; simp at hd
  · rcases h with ⟨w, hw⟩ | hd
    · rw [he] at hw; simp at hw
    · rw [he] at hd; simp at hd
  · rcases h with ⟨w, hw⟩ | hd
    · rw [he] at hw; simp at hw
    · rw [he] at hd; simp at hd
  · rw [he]
  · rw [he]
  · rcases h with ⟨w, hw⟩ | hd
    · rw [he] at hw; simp at hw
    · rw [he] at hd; simp at hd

theorem c4_accepted_spec (s : GameState) (user col : Nat)
    (h : (c4_callback s user col).outcome = MoveOutcome.won user ∨
      (c4_callback s user col).outcome = MoveOutcome.drawn ∨
      (c4_callback s user col).outcome = MoveOutcome.moved) :
    (drop_piece s.board col (s.turn + 1)).2 = true ∧
    (c4_callback s user col).state.board = (drop_piece s.board col (s.turn + 1)).1 := by
  rcases c4_cases s user col with ⟨_, he⟩ | ⟨_, _, he⟩ | ⟨_, _, _, he⟩ |
      ⟨_, _, hdp, _, he⟩ | ⟨_, _, hdp, _, _, he⟩ | ⟨_, _, hdp, _, _, he⟩
  · rcases h with h | h | h <;> (rw [he] at h; simp at h)
  · rcases h with h | h | h <;> (rw [he] at h; simp at h)
  · rcases h with h | h | h <;> (rw [he] at h; simp at h)
  · exact ⟨hdp, by rw [he]⟩
  · exact ⟨hdp, by rw [he]⟩
  · exact ⟨hdp, by rw [he]⟩

theorem ttt_accepted_spec (s : GameState) (user x y : Nat)
    (h : (ttt_callback s user x y).outcome = MoveOutcome.won user ∨
      (ttt_callback s user x y).outcome = MoveOutcome.drawn ∨
      (ttt_callback s user x y).outcome = MoveOutcome.moved) :
    bGet s.board y x = 0 ∧
    (ttt_callback s user x y).state.board = set_cell s.board y x (s.turn + 1) := by
  rcases ttt_cases s user x y with ⟨_, he⟩ | ⟨_, _, he⟩ | ⟨_, _, _, he⟩ |
      ⟨_, _, hc, _, he⟩ | ⟨_, _, hc, _, _, he⟩ | ⟨_, _, hc, _, _, he⟩
  · rcases h with h | h | h <;> (rw [he] at h; simp at h)
  · rcases h with h | h | h <;> (rw [he] at h; simp at h)
  · rcases h with h | h | h <;> (rw [he] at h; simp at h)
  · exact ⟨hc, by rw [he]⟩
  · exact ⟨hc, by rw [he]⟩
  · exact ⟨hc, by rw [he]⟩

/-! ### Concrete scenario states -/

/-- A Connect-Four session one move from a vertical win: player one already
holds the bottom three cells of column 0 and is to move. -/
def c4NearWin : GameState :=
  ⟨[[0, 0, 0, 0, 0, 0, 0], [0, 0, 0, 0, 0, 0, 0], [0, 0, 0, 0, 0, 0, 0],
    [1, 0, 0, 0, 0, 0, 0], [1, 0, 0, 0, 0, 0, 0], [1, 0, 0, 0, 0, 0, 0]],
   [10, 20], 0, false⟩

/-- A session whose `game_over` flag is already set (a terminal session). -/
def c4Finished : GameState :=
  ⟨List.replicate 6 (List.replicate 7 0), [10, 20], 0, true⟩

/-- A Connect-Four session whose column 0 is completely full. -/
def c4FullCol : GameState :=
  ⟨[[2, 0, 0, 0, 0, 0, 0], [1, 0, 0, 0, 0, 0, 0], [2, 0, 0, 0, 0, 0, 0],
    [1, 0, 0, 0, 0, 0, 0], [2, 0, 0, 0, 0, 0, 0], [1, 0, 0, 0, 0, 0, 0]],
   [10, 20], 0, false⟩

/-- A Tic-Tac-Toe session with eight cells filled and no line yet, where the
move of player one at cell `(y, x) = (2, 2)` both completes the third column
and fills the board. -/
def tttNearWinFull : GameState :=
  ⟨[[1, 2, 1], [2, 2, 1], [2, 1, 0]], [10, 20], 0, false⟩

/-! ### Claims -/

/-- C1 counterexample: a move of player `10` that wins the Connect-Four
session emits no economy-credit event at all, contradicting the claim that
exactly one reward-credit event is emitted for the winner. -/
theorem C1_counterexample :
    (c4_callback c4NearWin 10 0).outcome = MoveOutcome.won 10 ∧
    (c4_callback c4NearWin 10 0).credits = [] ∧
    ¬(c4_callback c4NearWin 10 0).credits.length = 1 := by decide

/-- C1 (amended): neither game callback ever emits an economy-credit event:
the credit trace of every submitted move, in both variants, is empty — in
particular no credit is emitted on a win, a draw, or an abandonment. -/
theorem C1_no_credit_ever :
    ∀ (s : GameState) (user col x y : Nat),
      (c4_callback s user col).credits = [] ∧ (ttt_callback s user x y).credits = [] := by
  intro s user col x y
  refine ⟨?_, ?_⟩
  · rcases c4_cases s user col with ⟨_, he⟩ | ⟨_, _, he⟩ | ⟨_, _, _, he⟩ | ⟨_, _, _, _, he⟩ |
        ⟨_, _, _, _, _, he⟩ | ⟨_, _, _, _, _, he⟩ <;> rw [he]
  · rcases ttt_cases s user x y with ⟨_, he⟩ | ⟨_, _, he⟩ | ⟨_, _, _, he⟩ | ⟨_, _, _, _, he⟩ |
        ⟨_, _, _, _, _, he⟩ | ⟨_, _, _, _, _, he⟩ <;> rw [he]

/-- C2 counterexample: on a finished session, a user who is also not the
participant selected by `turnIndex` receives `GameAlreadyOver`, not
`NotYourTurn` — the game-over test runs first, contradicting the claimed
check order. -/
theorem C2_counterexample :
    c4Finished.gameOver = true ∧
    20 ≠ c4Finished.players.getD c4Finished.turn 0 ∧
    (c4_callback c4Finished 20 0).outcome = MoveOutcome.gameAlreadyOver ∧
    ¬(c4_callback c4Finished 20 0).outcome = MoveOutcome.notYourTurn := by decide

/-- C2 (amended): both callbacks check the game-over flag before the actor:
a move on a finished session fails with `GameAlreadyOver` regardless of the
actor, and only on an in-progress session is the actor checked against
`turnIndex`, failing with `NotYourTurn`. -/
theorem C2_game_over_checked_first :
    ∀ (s : GameState) (user col x y : Nat),
      (s.gameOver = true →
        (c4_callback s user col).outcome = MoveOutcome.gameAlreadyOver ∧
        (ttt_callback s user x y).outcome = MoveOutcome.gameAlreadyOver) ∧
      (s.gameOver = false → user ≠ s.players.getD s.turn 0 →
        (c4_callback s user col).outcome = MoveOutcome.notYourTurn ∧
        (ttt_callback s user x y).outcome = MoveOutcome.notYourTurn) := by
  intro s user col x y
  refine ⟨fun hgo => ⟨?_, ?_⟩, fun hgo hu => ⟨?_, ?_⟩⟩
  · rw [c4_callback_gameOver s user col hgo]
  · rw [ttt_callback_gameOver s user x y hgo]
  · rw [c4_callback_notYourTurn s user col hgo hu]
  · rw [ttt_callback_notYourTurn s user x y hgo hu]

/-- C2 witness: the amended order at two concrete inputs. -/
theorem C2_witness :
    (c4_callback c4Finished 20 0).outcome = MoveOutcome.gameAlreadyOver ∧
    (ttt_callback (ttt_init 10 20) 20 0 0).outcome = MoveOutcome.notYourTurn :=
  ⟨((C2_game_over_checked_first c4Finished 20 0 0 0).1 rfl).1,
   ((C2_game_over_checked_first (ttt_init 10 20) 20 0 0 0).2 rfl (by decide)).2⟩

/-- C5 counterexample: an accepted winning move does not flip `turnIndex`:
after player `10` wins, `turn` still equals its pre-move value `0`, not
`1 - 0`, so `turnIndex` does not alternate after every accepted move. -/
theorem C5_counterexample :
    (c4_callback c4NearWin 10 0).outcome = MoveOutcome.won 10 ∧
    (c4_callback c4NearWin 10 0).state.turn = c4NearWin.turn ∧
    ¬(c4_callback c4NearWin 10 0).state.turn = 1 - c4NearWin.turn := by decide

/-- C5 (amended): after an accepted move that keeps the session in progress,
`turnIndex` flips to `1 - turnIndex`; after an accepted move that produces a
terminal outcome (win or draw) `turnIndex` is left unchanged. -/
theorem C5_turn_flip :
    ∀ (s : GameState) (user col x y : Nat),
      ((c4_callback s user col).outcome = MoveOutcome.moved →
        (c4_callback s user col).state.turn = 1 - s.turn) ∧
      (((∃ w, (c4_callback s user col).outcome = MoveOutcome.won w) ∨
          (c4_callback s user col).outcome = MoveOutcome.drawn) →
        (c4_callback s user col).state.turn = s.turn) ∧
      ((ttt_callback s user x y).outcome = MoveOutcome.moved →
        (ttt_callback s user x y).state.turn = 1 - s.turn) ∧
      (((∃ w, (ttt_callback s user x y).outcome = MoveOutcome.won w) ∨
          (ttt_callback s user x y).outcome = MoveOutcome.drawn) →
        (ttt_callback s user x y).state.turn = s.turn) :=
  fun s user col x y =>
    ⟨c4_moved_turn s user col, c4_terminal_turn s user col,
     ttt_moved_turn s user x y, ttt_terminal_turn s user x y⟩

/-- C5 witness: a concrete in-progress move flips the turn and a concrete
winning move keeps it. -/
theorem C5_witness :
    (c4_callback (c4_init 10 20) 10 3).state.turn = 1 - (c4_init 10 20).turn ∧
    (c4_callback c4NearWin 10 0).state.turn = c4NearWin.turn :=
  ⟨(C5_turn_flip (c4_init 10 20) 10 3 0 0).1 (by decide),
   (C5_turn_flip c4NearWin 10 0 0 0).2.1 (Or.inl ⟨10, by decide⟩)⟩

/-- C6: terminal states are absorbing — once `game_over` holds, every
subsequent move in either variant is rejected with `GameAlreadyOver` and the
whole session state (board, players, turn, flag) is returned unchanged. -/
theorem C6_terminal_absorbing :
    ∀ (s : GameState) (user col x y : Nat), s.gameOver = true →
      c4_callback s user col = ⟨s, MoveOutcome.gameAlreadyOver, []⟩ ∧
      ttt_callback s user x y = ⟨s, MoveOutcome.gameAlreadyOver, []⟩ :=
  fun s user col x y h =>
    ⟨c4_callback_gameOver s user col h, ttt_callback_gameOver s user x y h⟩

/-- C6 witness: the absorbing property at a concrete finished session. -/
theorem C6_witness :
    c4_callback c4Finished 10 0 = ⟨c4Finished, MoveOutcome.gameAlreadyOver, []⟩ ∧
    ttt_callback c4Finished 10 0 0 = ⟨c4Finished, MoveOutcome.gameAlreadyOver, []⟩ :=
  C6_terminal_absorbing c4Finished 10 0 0 0 rfl

/-- C10: an accepted move that produces a terminal outcome (win or draw)
does not flip the turn marker: `turnIndex` still selects the participant who
made the terminal move. -/
theorem C10_terminal_keeps_turn :
    ∀ (s : GameState) (user col x y : Nat),
      (((∃ w, (c4_callback s user col).outcome = MoveOutcome.won w) ∨
          (c4_callback s user col).outcome = MoveOutcome.drawn) →
        (c4_callback s user col).state.turn = s.turn) ∧
      (((∃ w, (ttt_callback s user x y).outcome = MoveOutcome.won w) ∨
          (ttt_callback s user x y).outcome = MoveOutcome.drawn) →
        (ttt_callback s user x y).state.turn = s.turn) :=
  fun s user col x y => ⟨c4_terminal_turn s user col, ttt_terminal_turn s user x y⟩

/-- C10 witness: two concrete winning moves keep the turn marker. -/
theorem C10_witness :
    (c4_callback c4NearWin 10 0).state.turn = c4NearWin.turn ∧
    (ttt_callback tttNearWinFull 10 2 2).state.turn = tttNearWinFull.turn :=
  ⟨(C10_terminal_keeps_turn c4NearWin 10 0 0 0).1 (Or.inl ⟨10, by decide⟩),
   (C10_terminal_keeps_turn tttNearWinFull 10 0 2 2).2 (Or.inl ⟨10, by decide⟩)⟩

/-- C3: for every board and column (with the column index within every row,
as in the source), the gravity drop fails exactly when no empty cell exists
in that column, leaves the board unmodified on failure, and on success
occupies the bottom-most empty cell of the column — the first empty cell
found scanning from the bottom row upward, i.e. the largest empty row index,
below which every cell of the column is occupied. -/
theorem C3_gravity_drop :
    ∀ (b : Board) (col piece : Nat), (∀ row ∈ b, col < row.length) →
      (((drop_piece b col piece).2 = false ↔ ∀ r, r < b.length → bGet b r col ≠ 0) ∧
       ((drop_piece b col piece).2 = false → (drop_piece b col piece).1 = b) ∧
       ((drop_piece b col piece).2 = true →
         ∃ r, r < b.length ∧ bGet b r col = 0 ∧
           (∀ rr, r < rr → rr < b.length → bGet b rr col ≠ 0) ∧
           (drop_piece b col piece).1 = set_cell b r col piece)) := by
  intro b col piece hcol
  refine ⟨?_, drop_piece_false_board b col piece, ?_⟩
  · rw [drop_piece_false_iff]
    exact colFull_iff b col hcol
  · intro h
    obtain ⟨r, hr, hz, hocc, hb⟩ := drop_piece_true_spec b col piece h
    refine ⟨r, hr, ?_, ?_, hb⟩
    · rw [← getD1_eq_bGet b col r hr hcol]
      exact hz
    · intro rr h1 h2
      have h3 := hocc rr h1 h2
      rwa [getD1_eq_bGet b col rr h2 hcol] at h3

/-- C3 witness: a concrete successful drop in column 0. -/
theorem C3_witness :
    (drop_piece c4NearWin.board 0 1).2 = true ∧
    (∃ r, r < c4NearWin.board.length ∧ bGet c4NearWin.board r 0 = 0 ∧
      (∀ rr, r < rr → rr < c4NearWin.board.length → bGet c4NearWin.board rr 0 ≠ 0) ∧
      (drop_piece c4NearWin.board 0 1).1 = set_cell c4NearWin.board r 0 1) :=
  ⟨by decide, (C3_gravity_drop c4NearWin.board 0 1 (by decide)).2.2 (by decide)⟩

/-- C4: an illegal move (full column in Connect-Four, occupied cell in
Tic-Tac-Toe) reports `IllegalMove` and leaves the entire session state
unchanged, so repeating the same illegal move yields the identical result
(same error, same board) both times. -/
theorem C4_illegal_leaves_state :
    ∀ (s : GameState) (user col x y : Nat),
      ((c4_callback s user col).outcome = MoveOutcome.illegalMove →
        (c4_callback s user col).state = s ∧
        c4_callback (c4_callback s user col).state user col = c4_callback s user col) ∧
      ((ttt_callback s user x y).outcome = MoveOutcome.illegalMove →
        (ttt_callback s user x y).state = s ∧
        ttt_callback (ttt_callback s user x y).state user x y = ttt_callback s user x y) := by
  intro s user col x y
  constructor
  · intro h
    rcases c4_cases s user col with ⟨_, he⟩ | ⟨_, _, he⟩ | ⟨_, _, _, he⟩ | ⟨_, _, _, _, he⟩ |
        ⟨_, _, _, _, _, he⟩ | ⟨_, _, _, _, _, he⟩
    · rw [he] at h; simp at h
    · rw [he] at h; simp at h
    · rw [he]; exact ⟨rfl, he⟩
    · rw [he] at h; simp at h
    · rw [he] at h; simp at h
    · rw [he] at h; simp at h
  · intro h
    rcases ttt_cases s user x y with ⟨_, he⟩ | ⟨_, _, he⟩ | ⟨_, _, _, he⟩ | ⟨_, _, _, _, he⟩ |
        ⟨_, _, _, _, _, he⟩ | ⟨_, _, _, _, _, he⟩
    · rw [he] at h; simp at h
    · rw [he] at h; simp at h
    · rw [he]; exact ⟨rfl, he⟩
    · rw [he] at h; simp at h
    · rw [he] at h; simp at h
    · rw [he] at h; simp at h

/-- C4 witness: a full column and an occupied cell, each rejected twice with
identical results. -/
theorem C4_witness :
    ((c4_callback c4FullCol 10 0).state = c4FullCol ∧
      c4_callback (c4_callback c4FullCol 10 0).state 10 0 = c4_callback c4FullCol 10 0) ∧
    ((ttt_callback tttNearWinFull 10 0 0).state = tttNearWinFull ∧
      ttt_callback (ttt_callback tttNearWinFull 10 0 0).state 10 0 0 =
        ttt_callback tttNearWinFull 10 0 0) :=
  ⟨(C4_illegal_leaves_state c4FullCol 10 0 0 0).1 (by decide),
   (C4_illegal_leaves_state tttNearWinFull 10 0 0 0).2 (by decide)⟩

/-- C7: after a successful placement the win check runs before the draw
check: a winning placement yields `WonBy(actor)` (and a terminal flag) even
when it also fills the board, and the outcome is `Drawn` exactly when the
board is full and the mover has no line. -/
theorem C7_win_checked_before_draw :
    ∀ (s : GameState) (user col x y : Nat),
      (s.gameOver = false → user = s.players.getD s.turn 0 →
        (drop_piece s.board col (s.turn + 1)).2 = true →
        ((c4_check_winner (drop_piece s.board col (s.turn + 1)).1 (s.turn + 1) = true →
          (c4_callback s user col).outcome = MoveOutcome.won user ∧
          (c4_callback s user col).state.gameOver = true) ∧
         ((c4_callback s user col).outcome = MoveOutcome.drawn ↔
           c4_check_winner (drop_piece s.board col (s.turn + 1)).1 (s.turn + 1) = false ∧
           board_full (drop_piece s.board col (s.turn + 1)).1 = true))) ∧
      (s.gameOver = false → user = s.players.getD s.turn 0 → bGet s.board y x = 0 →
        ((ttt_check_winner (set_cell s.board y x (s.turn + 1)) (s.turn + 1) = true →
          (ttt_callback s user x y).outcome = MoveOutcome.won user ∧
          (ttt_callback s user x y).state.gameOver = true) ∧
         ((ttt_callback s user x y).outcome = MoveOutcome.drawn ↔
           ttt_check_winner (set_cell s.board y x (s.turn + 1)) (s.turn + 1) = false ∧
           board_full (set_cell s.board y x (s.turn + 1)) = true))) := by
  intro s user col x y
  constructor
  · intro hgo hu hdp
    constructor
    · intro hw
      rw [c4_callback_won s user col hgo hu hdp hw]
      exact ⟨rfl, rfl⟩
    · constructor
      · intro hd
        by_cases hw : c4_check_winner (drop_piece s.board col (s.turn + 1)).1 (s.turn + 1) = true
        · rw [c4_callback_won s user col hgo hu hdp hw] at hd
          simp at hd
        · have hw2 :
              c4_check_winner (drop_piece s.board col (s.turn + 1)).1 (s.turn + 1) = false := by
            simpa using hw
          by_cases hf : board_full (drop_piece s.board col (s.turn + 1)).1 = true
          · exact ⟨hw2, hf⟩
          · have hf2 : board_full (drop_piece s.board col (s.turn + 1)).1 = false := by
              simpa using hf
            rw [c4_callback_moved s user col hgo hu hdp hw2 hf2] at hd
            simp at hd
      · rintro ⟨hw2, hf⟩
        rw [c4_callback_drawn s user col hgo hu hdp hw2 hf]
  · intro hgo hu hc
    constructor
    · intro hw
      rw [ttt_callback_won s user x y hgo hu hc hw]
      exact ⟨rfl, rfl⟩
    · constructor
      · intro hd
        by_cases hw : ttt_check_winner (set_cell s.board y x (s.turn + 1)) (s.turn + 1) = true
        · rw [ttt_callback_won s user x y hgo hu hc hw] at hd
          simp at hd
        · have hw2 :
              ttt_check_winner (set_cell s.board y x (s.turn + 1)) (s.turn + 1) = false := by
            simpa using hw
          by_cases hf : board_full (set_cell s.board y x (s.turn + 1)) = true
          · exact ⟨hw2, hf⟩
          · have hf2 : board_full (set_cell s.board y x (s.turn + 1)) = false := by
              simpa using hf
            rw [ttt_callback_moved s user x y hgo hu hc hw2 hf2] at hd
            simp at hd
      · rintro ⟨hw2, hf⟩
        rw [ttt_callback_drawn s user x y hgo hu hc hw2 hf]

/-- C7 witness: a concrete Tic-Tac-Toe move that both completes a line and
fills the last empty cell is reported as a win, not a draw. -/
theorem C7_witness :
    board_full (set_cell tttNearWinFull.board 2 2 (tttNearWinFull.turn + 1)) = true ∧
    (ttt_callback tttNearWinFull 10 2 2).outcome = MoveOutcome.won 10 ∧
    (ttt_callback tttNearWinFull 10 2 2).state.gameOver = true :=
  ⟨by decide,
   ((C7_win_checked_before_draw tttNearWinFull 10 0 2 2).2 (by decide) (by decide)
      (by decide)).1 (by decide)⟩

/-- C8: both variants' win checks are instances of the one parameterized
line-detection primitive `hasLine`: the Connect-Four check equals
`hasLine 6 7 4` on every board, and the Tic-Tac-Toe check equals
`hasLine 3 3 3` on every 3×3 board. -/
theorem C8_one_line_primitive :
    (∀ (b : Board) (p : Nat), c4_check_winner b p = hasLine 6 7 4 b p) ∧
    (∀ (p a00 a01 a02 a10 a11 a12 a20 a21 a22 : Nat),
      ttt_check_winner [[a00, a01, a02], [a10, a11, a12], [a20, a21, a22]] p =
        hasLine 3 3 3 [[a00, a01, a02], [a10, a11, a12], [a20, a21, a22]] p) := by
  constructor
  · intro b p
    unfold c4_check_winner hasLine
    congr 1
    funext r
    congr 1
    funext c
    have e1 : decide (c + 3 < 7) = decide (c + 4 ≤ 7) := decide_eq_decide.mpr (by omega)
    have e2 : decide (r + 3 < 6) = decide (r + 4 ≤ 6) := decide_eq_decide.mpr (by omega)
    have e3 : decide (3 ≤ r) = decide (4 ≤ r + 1) := decide_eq_decide.mpr (by omega)
    rw [e1, e2, e3]
  · intro p a00 a01 a02 a10 a11 a12 a20 a21 a22
    simp only [ttt_check_winner, hasLine, bGet,
      show List.range 3 = [0, 1, 2] from rfl,
      List.any_cons, List.any_nil, List.all_cons, List.all_nil,
      List.getD_cons_zero, List.getD_cons_succ]
    norm_num
    generalize (a00 == p) = t00
    generalize (a01 == p) = t01
    generalize (a02 == p) = t02
    generalize (a10 == p) = t10
    generalize (a11 == p) = t11
    generalize (a12 == p) = t12
    generalize (a20 == p) = t20
    generalize (a21 == p) = t21
    generalize (a22 == p) = t22
    revert t00 t01 t02 t10 t11 t12 t20 t21 t22
    decide

/-- C9: every successful placement changes exactly one cell: the target cell
goes from empty to the mover's piece and every other cell is unchanged (for
Connect-Four the target is the resolved drop row of the chosen column; for
Tic-Tac-Toe it is the chosen cell, with in-bounds coordinates). -/
theorem C9_one_cell_frame :
    ∀ (s : GameState) (user col x y : Nat),
      ((∀ row ∈ s.board, col < row.length) →
        ((c4_callback s user col).outcome = MoveOutcome.won user ∨
         (c4_callback s user col).outcome = MoveOutcome.drawn ∨
         (c4_callback s user col).outcome = MoveOutcome.moved) →
        ∃ r, r < s.board.length ∧ bGet s.board r col = 0 ∧
          bGet (c4_callback s user col).state.board r col = s.turn + 1 ∧
          (∀ r2 c2, ¬(r2 = r ∧ c2 = col) →
            bGet (c4_callback s user col).state.board r2 c2 = bGet s.board r2 c2)) ∧
      (y < s.board.length → x < (s.board.getD y []).length →
        ((ttt_callback s user x y).outcome = MoveOutcome.won user ∨
         (ttt_callback s user x y).outcome = MoveOutcome.drawn ∨
         (ttt_callback s user x y).outcome = MoveOutcome.moved) →
        bGet s.board y x = 0 ∧
        bGet (ttt_callback s user x y).state.board y x = s.turn + 1 ∧
        (∀ r2 c2, ¬(r2 = y ∧ c2 = x) →
          bGet (ttt_callback s user x y).state.board r2 c2 = bGet s.board r2 c2)) := by
  intro s user col x y
  constructor
  · intro hcol hacc
    obtain ⟨hdp, hsb⟩ := c4_accepted_spec s user col hacc
    obtain ⟨r, hr, hz, hocc, hb⟩ := drop_piece_true_spec s.board col (s.turn + 1) hdp
    have hmem : s.board.getD r [] ∈ s.board := by
      rw [List.getD_eq_getElem _ _ hr]
      exact List.getElem_mem hr
    refine ⟨r, hr, ?_, ?_, ?_⟩
    · rw [← getD1_eq_bGet s.board col r hr hcol]
      exact hz
    · rw [hsb, hb]
      exact bGet_set_cell_eq s.board r col (s.turn + 1) hr (hcol _ hmem)
    · intro r2 c2 hne
      rw [hsb, hb]
      exact bGet_set_cell_ne s.board r col (s.turn + 1) r2 c2 hne
  · intro hy hx hacc
    obtain ⟨hc, hsb⟩ := ttt_accepted_spec s user x y hacc
    refine ⟨hc, ?_, ?_⟩
    · rw [hsb]
      exact bGet_set_cell_eq s.board y x (s.turn + 1) hy hx
    · intro r2 c2 hne
      rw [hsb]
      exact bGet_set_cell_ne s.board y x (s.turn + 1) r2 c2 hne

/-- C9 witness: the frame property at a concrete drop and a concrete
Tic-Tac-Toe placement. -/
theorem C9_witness :
    (∃ r, r < c4NearWin.board.length ∧ bGet c4NearWin.board r 0 = 0 ∧
      bGet (c4_callback c4NearWin 10 0).state.board r 0 = c4NearWin.turn + 1 ∧
      (∀ r2 c2, ¬(r2 = r ∧ c2 = 0) →
        bGet (c4_callback c4NearWin 10 0).state.board r2 c2 = bGet c4NearWin.board r2 c2)) ∧
    (bGet tttNearWinFull.board 2 2 = 0 ∧
      bGet (ttt_callback tttNearWinFull 10 2 2).state.board 2 2 = tttNearWinFull.turn + 1 ∧
      (∀ r2 c2, ¬(r2 = 2 ∧ c2 = 2) →
        bGet (ttt_callback tttNearWinFull 10 2 2).state.board r2 c2 =
          bGet tttNearWinFull.board r2 c2)) :=
  ⟨(C9_one_cell_frame c4NearWin 10 0 0 0).1 (by decide) (Or.inl (by decide)),
   (C9_one_cell_frame tttNearWinFull 10 0 2 2).2 (by decide) (by decide)
     (Or.inl (by decide))⟩

example :
    (c4_callback (c4_init 10 20) 10 3).outcome = MoveOutcome.moved ∧
    (c4_callback (c4_init 10 20) 10 3).state.turn = 1 := by decide

example : (ttt_callback (ttt_init 10 20) 20 0 0).outcome = MoveOutcome.notYourTurn := by
  decide

end NewBot
